import Mathlib

/-!
# Verification of the zakuf-backend conversion gateway

Shallow embedding of the Go sources of `sidkhuntia/zakuf-backend`:

* `main.go` — the direct-conversion variant: `POST /convert` proxies uploaded
  files to a remote Gotenberg service, `POST /convert-url` proxies a URL, and
  `addGotenbergOptions` maps the generic options record onto the form fields
  each engine recognises.
* the staged variant (`/upload` + `/process`): files are saved under names that
  embed their upload position (`<index>_<name>`), a later `/process` call
  re-derives those names from the client-declared order, converts `.docx`
  items locally, merges the resulting PDFs with pdfcpu, serves the result and
  schedules removal of the session directory after one hour.

Bytes are modelled as `List Nat`; the session directory as an association
list from file name to content (first binding wins, which matches
last-write-wins on a filesystem when new files are prepended).
-/

/-- Byte streams (file contents, PDF outputs). -/
abbrev Bytes := List Nat

/-- A session directory: stored file name ↦ content. -/
abbrev Dir := List (String × Bytes)

/-! ## Option mapper (`addGotenbergOptions`, main.go lines 194-237) -/

/-- The generic options record (`ConversionOptions` struct in main.go).
Go `float64` fields are modelled as `ℚ`. -/
structure ConversionOptions where
  flatten : Bool
  merge : Bool
  outputFormat : String
  landscape : Bool
  nativePageRanges : String
  paperWidth : ℚ
  paperHeight : ℚ
  marginTop : ℚ
  marginBottom : ℚ
  marginLeft : ℚ
  marginRight : ℚ
  printBackground : Bool
  scale : ℚ
  url : String
  indexHTML : String
  deriving Repr, DecidableEq

/-- The zero value of `ConversionOptions` (all flags false, numerics 0,
strings empty) — what the Go struct holds before any form field is parsed. -/
def defaultOpts : ConversionOptions :=
  ⟨false, false, "", false, "", 0, 0, 0, 0, 0, 0, false, 0, "", ""⟩

/-- Two-digit zero padding used by the decimal formatter. -/
def pad2 (n : Nat) : String :=
  if n < 10 then "0" ++ toString n else toString n

/-- The value in hundredths, rounded to nearest (half up):
`⌊q * 100 + 1/2⌋` computed by floor division on the fraction `q.num / q.den`. -/
def hundredths (q : ℚ) : Int :=
  Int.fdiv (200 * q.num + q.den) (2 * q.den)

/-- Embeds `fmt.Sprintf("%.2f", v)` for the nonnegative values the mapper
forwards: the value rounded to hundredths, printed with exactly two decimal
digits. -/
def fmt2 (q : ℚ) : String :=
  let c : Int := hundredths q
  toString (c / 100) ++ "." ++ pad2 (c % 100).toNat

/-- One optional boolean form field: `if b { writer.WriteField(name, "true") }`. -/
def boolField (name : String) (b : Bool) : List (String × String) :=
  if b then [(name, "true")] else []

/-- One optional numeric form field:
`if v > 0 { writer.WriteField(name, fmt.Sprintf("%.2f", v)) }`. -/
def numField (name : String) (v : ℚ) : List (String × String) :=
  if 0 < v then [(name, fmt2 v)] else []

/-- Embeds `strings.HasPrefix(conversionType, "chromium")`. -/
def isChromium (ct : String) : Bool :=
  ct.data.take 8 == "chromium".data

/-- Embeds `addGotenbergOptions` (main.go lines 194-237): the ordered list of
form fields written for a given conversion type.  `flatten` sits in the
"Common options" block and is written for every conversion type; the
LibreOffice block fires only for `"libreoffice"`; the Chromium numeric/print
block fires for every type with prefix `"chromium"`. -/
def addGotenbergOptions (ct : String) (o : ConversionOptions) : List (String × String) :=
  boolField "flatten" o.flatten ++
  (if ct = "libreoffice" then
      boolField "landscape" o.landscape ++
      (if o.nativePageRanges ≠ "" then [("nativePageRanges", o.nativePageRanges)] else [])
    else []) ++
  (if isChromium ct then
      numField "paperWidth" o.paperWidth ++
      numField "paperHeight" o.paperHeight ++
      numField "marginTop" o.marginTop ++
      numField "marginBottom" o.marginBottom ++
      numField "marginLeft" o.marginLeft ++
      numField "marginRight" o.marginRight ++
      boolField "printBackground" o.printBackground ++
      numField "scale" o.scale
    else [])

/-- Embeds the form built by `proxyURLToGotenberg` (main.go lines 147-162):
the `url` field followed by the mapped options for `"chromium-url"`. -/
def proxyURLForm (url : String) (o : ConversionOptions) : List (String × String) :=
  ("url", url) :: addGotenbergOptions "chromium-url" o

/-! ## Direct conversion (`POST /convert`, main.go lines 67-145 and 296-366) -/

/-- A structured failure raised by `proxyToGotenbergDirect` /
`proxyURLToGotenberg`: unsupported conversion type (the `default` switch
case), transport failure (`client.Do` error), or a non-200 response status. -/
inductive ProxyError where
  | unsupportedType (ct : String)
  | sendFailed (msg : String)
  | badStatus (status : Nat)
  deriving Repr, DecidableEq

/-- The remote Gotenberg service's behaviour on one call, supplied as data:
either a transport error or a response with a status code and body bytes. -/
inductive RemoteResult where
  | netErr (msg : String)
  | resp (status : Nat) (body : Bytes)
  deriving Repr, DecidableEq

/-- Embeds the endpoint-selection switch of `proxyToGotenbergDirect`
(main.go lines 71-85): `libreoffice` selects the convert or merge form
depending on `options.Merge`; the two chromium file engines have fixed
endpoints; anything else is rejected. -/
def selectEndpoint (ct : String) (merge : Bool) : Except ProxyError String :=
  if ct = "libreoffice" then
    .ok (if merge then "/forms/libreoffice/merge" else "/forms/libreoffice/convert")
  else if ct = "chromium-html" then .ok "/forms/chromium/convert/html"
  else if ct = "chromium-markdown" then .ok "/forms/chromium/convert/markdown"
  else .error (.unsupportedType ct)

/-- Embeds `proxyToGotenbergDirect` (main.go lines 67-145): endpoint
selection, then one remote call whose outcome is `remote`; a non-200 status
is an error; a 200 body is returned unchanged.  The second component counts
the outbound remote calls actually made (0 when the type is rejected before
the request is sent). -/
def proxyToGotenbergDirect (ct : String) (o : ConversionOptions)
    (remote : RemoteResult) : Except ProxyError Bytes × Nat :=
  match selectEndpoint ct o.merge with
  | .error e => (.error e, 0)
  | .ok _ =>
    match remote with
    | .netErr m => (.error (.sendFailed m), 1)
    | .resp status body =>
      if status = 200 then (.ok body, 1) else (.error (.badStatus status), 1)

/-- The HTTP-level outcome of the `/convert` handler. -/
inductive ConvertOutcome where
  | pdf (bytes : Bytes)
  | badRequest (msg : String)
  | serverError (e : ProxyError)
  deriving Repr, DecidableEq

/-- How many backend attempts the `/convert` handler made: remote Gotenberg
calls and local (UniOffice) conversion calls. -/
structure ConvertTrace where
  remoteAttempts : Nat
  localAttempts : Nat
  deriving Repr, DecidableEq

/-- Embeds main.go lines 300-304: an absent or empty `conversionType` form
field defaults to `"libreoffice"`. -/
def resolveConversionType (formValue : String) : String :=
  if formValue ≠ "" then formValue else "libreoffice"

/-- Embeds the `POST /convert` handler (main.go lines 296-366).  After type
resolution and the no-files check it calls `proxyToGotenbergDirect` once; on
error it returns HTTP 500 directly — the handler contains no local-fallback
call on any path (the comment at line 356 notwithstanding), so
`localAttempts` is 0 everywhere.  On success the body bytes are returned
verbatim via `c.Data`. -/
def convertHandler (files : List (String × Bytes)) (ctForm : String)
    (o : ConversionOptions) (remote : RemoteResult) : ConvertOutcome × ConvertTrace :=
  let ct := resolveConversionType ctForm
  if files.isEmpty then (.badRequest "No files uploaded", ⟨0, 0⟩)
  else
    match proxyToGotenbergDirect ct o remote with
    | (.error e, n) => (.serverError e, ⟨n, 0⟩)
    | (.ok bytes, n) => (.pdf bytes, ⟨n, 0⟩)

/-! ## Staged workflow (`POST /upload` and `POST /process`) -/

/-- ASCII lowering of one character (the range `strings.ToLower` touches for
file extensions). -/
def lowerChar (c : Char) : Char :=
  if 65 ≤ c.toNat ∧ c.toNat ≤ 90 then Char.ofNat (c.toNat + 32) else c

/-- Embeds `strings.ToLower` on the ASCII strings that occur as extensions. -/
def strToLower (s : String) : String :=
  String.mk (s.data.map lowerChar)

/-- Last-dot search: `some suffix` starting at the final `'.'`, else `none`. -/
def extAux : List Char → Option (List Char)
  | [] => none
  | c :: rest =>
    match extAux rest with
    | some e => some e
    | none => if c = '.' then some (c :: rest) else none

/-- Embeds `filepath.Ext` for the slash-free file names used here: the suffix
beginning at the final dot, `""` when there is no dot. -/
def filepathExt (s : String) : String :=
  match extAux s.data with
  | some e => String.mk e
  | none => ""

/-- Embeds `fmt.Sprintf("%d_%s", i, name)` — the stored name of the item at
position `i`. -/
def storedName (i : Nat) (name : String) : String :=
  toString i ++ "_" ++ name

/-- Embeds the `POST /upload` handler's save loop (staged variant lines
357-366): item `i` of the multipart form is saved as `<i>_<originalName>`. -/
def uploadSession (files : List (String × Bytes)) : Dir :=
  files.enum.map (fun p => (storedName p.1 p.2.1, p.2.2))

/-- A structured failure of the `POST /process` handler, one constructor per
distinct error response of the Go code. -/
inductive ProcessError where
  | invalidSession
  | docxConvertFailed (path : String)
  | unsupportedFormat (ext : String)
  | openFailed (path : String)
  | mergeFailed
  | noFiles
  deriving Repr, DecidableEq

/-- Embeds the per-item loop of the `POST /process` handler (staged variant
lines 400-419) on the enumerated declared order.  For each `(i, name)` the
stored name is re-derived as `<i>_<name>`; a `.docx` item is converted
locally (`convertDocxToPdf`, abstracted as `conv`; `document.Open` fails when
the stored file is absent) and its output `<stored>.pdf` is written into the
session directory; a `.pdf` item's path is appended without an existence
check; any other extension aborts with the unsupported-format error.
Returns the updated directory with the accumulated `pdfFiles` path list, and
counts the `convertDocxToPdf` invocations made before returning. -/
def processLoop (conv : Bytes → Bytes) :
    Dir → List (Nat × String) → Except ProcessError (Dir × List String) × Nat
  | dir, [] => (.ok (dir, []), 0)
  | dir, (i, name) :: rest =>
    let fname := storedName i name
    let ext := strToLower (filepathExt fname)
    if ext = ".docx" then
      match List.lookup fname dir with
      | none => (.error (.docxConvertFailed fname), 1)
      | some b =>
        let pdfName := fname ++ ".pdf"
        match processLoop conv ((pdfName, conv b) :: dir) rest with
        | (.error e, n) => (.error e, n + 1)
        | (.ok (d, ps), n) => (.ok (d, pdfName :: ps), n + 1)
    else if ext = ".pdf" then
      match processLoop conv dir rest with
      | (.error e, n) => (.error e, n)
      | (.ok (d, ps), n) => (.ok (d, fname :: ps), n)
    else (.error (.unsupportedFormat ext), 0)

/-- Reads every path of `paths` from the directory, in order; `none` as soon
as one is missing (which is how `pdfcpu.MergeCreateFile` fails on a missing
input). -/
def readAll (dir : Dir) : List String → Option (List Bytes)
  | [] => some []
  | p :: ps =>
    match List.lookup p dir with
    | none => none
    | some b =>
      match readAll dir ps with
      | none => none
      | some bs => some (b :: bs)

/-- Embeds `api.MergeCreateFile`'s observable content contract: page-order
concatenation of the input documents in list order. -/
def mergePdfs (docs : List Bytes) : Bytes :=
  docs.flatten

/-- Decidable equality for `Except`, used to evaluate handler outcomes on
concrete inputs. -/
instance instDecEqExcept {ε α : Type} [DecidableEq ε] [DecidableEq α] :
    DecidableEq (Except ε α)
  | .ok a, .ok b =>
    if h : a = b then .isTrue (by rw [h]) else .isFalse (by simp [h])
  | .ok _, .error _ => .isFalse (by simp)
  | .error _, .ok _ => .isFalse (by simp)
  | .error e, .error f =>
    if h : e = f then .isTrue (by rw [h]) else .isFalse (by simp [h])

/-- The grace delay before session cleanup, in seconds
(`time.Sleep(1 * time.Hour)`). -/
def graceDelay : Nat := 3600

/-- The full observable outcome of one `POST /process` call: the served
bytes or the error response, the number of local conversion calls made, and
the scheduled cleanup delay (`some graceDelay` exactly when the handler
reached the `go func` at the end, `none` on every early `return`). -/
structure ProcessOutcome where
  result : Except ProcessError Bytes
  convCalls : Nat
  cleanupDelay : Option Nat
  deriving Repr, DecidableEq

/-- Embeds the `POST /process` handler (staged variant lines 377-467).
`sess` is the resolved session directory (`none` when `os.Stat` reports the
directory missing).  After the loop: an empty path list is "No files to
process"; a single path is copied byte-for-byte to the output and served
(failing if the path cannot be opened); several paths are merged in order.
Cleanup of the session scope is scheduled — with the one-hour delay — only
on the path that serves a deliverable. -/
def processHandler (conv : Bytes → Bytes) (sess : Option Dir)
    (order : List String) : ProcessOutcome :=
  match sess with
  | none => ⟨.error .invalidSession, 0, none⟩
  | some dir =>
    match processLoop conv dir order.enum with
    | (.error e, n) => ⟨.error e, n, none⟩
    | (.ok (dir', paths), n) =>
      match paths with
      | [] => ⟨.error .noFiles, n, none⟩
      | [p] =>
        match List.lookup p dir' with
        | none => ⟨.error (.openFailed p), n, none⟩
        | some b => ⟨.ok b, n, some graceDelay⟩
      | _ :: _ :: _ =>
        match readAll dir' paths with
        | none => ⟨.error .mergeFailed, n, none⟩
        | some docs => ⟨.ok (mergePdfs docs), n, some graceDelay⟩

/-! ## Session destruction (`os.RemoveAll(sessionDir)`) -/

/-- The uploads root: session id ↦ session directory. -/
abbrev UploadsRoot := List (String × Dir)

/-- Embeds the scheduled cleanup `os.RemoveAll(sessionDir)` on the uploads
root: the whole storage scope of `sid` is removed.  Per `os.RemoveAll`'s
documented semantics the call returns a nil error when the path does not
exist, so destruction is modelled as a total erase. -/
def destroySession (root : UploadsRoot) (sid : String) : UploadsRoot :=
  root.filter (fun e => e.1 != sid)

/-- `true` on the success constructor of an endpoint selection. -/
def endpointOk : Except ProxyError String → Bool
  | .ok _ => true
  | .error _ => false

/-- `true` when a `/process` result served a deliverable. -/
def isServed : Except ProcessError Bytes → Bool
  | .ok _ => true
  | .error _ => false

/-- Options record with only `flatten` set. -/
def optsFlatten : ConversionOptions :=
  ⟨true, false, "", false, "", 0, 0, 0, 0, 0, 0, false, 0, "", ""⟩

/-- Options record with only `paperWidth = 2`. -/
def optsPaper2 : ConversionOptions :=
  ⟨false, false, "", false, "", 2, 0, 0, 0, 0, 0, false, 0, "", ""⟩

/-! ## Helper lemmas -/

lemma mem_boolField {a v n : String} {b : Bool} :
    (a, v) ∈ boolField n b ↔ b = true ∧ a = n ∧ v = "true" := by
  unfold boolField
  cases b <;> simp

lemma mem_numField {a v n : String} {q : ℚ} :
    (a, v) ∈ numField n q ↔ 0 < q ∧ a = n ∧ v = fmt2 q := by
  unfold numField
  split <;> simp_all

lemma destroy_lookup_none (root : UploadsRoot) (sid : String) :
    List.lookup sid (destroySession root sid) = none := by
  induction root with
  | nil => rfl
  | cons e es ih =>
    unfold destroySession at ih ⊢
    rw [List.filter_cons]
    by_cases h : e.1 = sid
    · have hb : (e.1 != sid) = false := by simp [h]
      rw [hb]
      simpa using ih
    · have hb : (e.1 != sid) = true := by simp [h]
      rw [hb]
      have hs : (sid == e.1) = false := by simp [Ne.symm h]
      simp only [if_true, List.lookup, hs]
      exact ih

lemma destroy_idem (root : UploadsRoot) (sid : String) :
    destroySession (destroySession root sid) sid = destroySession root sid := by
  unfold destroySession
  rw [List.filter_filter]
  simp

lemma destroy_absent (root : UploadsRoot) (sid : String)
    (h : List.lookup sid root = none) : destroySession root sid = root := by
  induction root with
  | nil => rfl
  | cons e es ih =>
    unfold destroySession at ih ⊢
    rw [List.filter_cons]
    by_cases he : e.1 = sid
    · rw [List.lookup, he] at h
      simp at h
    · have hb : (e.1 != sid) = true := by simp [he]
      have hs : (sid == e.1) = false := by simp [Ne.symm he]
      rw [List.lookup, hs] at h
      rw [hb]
      simp only [if_true]
      rw [ih h]

/-! ## Claim theorems -/

/-- C1: the `/convert` handler makes no local fallback attempt for any
conversion type.  On the failing input — a libreoffice conversion whose
remote call returns status 503 — the handler returns the Gotenberg error
directly with zero local conversion attempts, and in general every call
makes zero local attempts and at most one remote attempt. -/
theorem C1_no_local_fallback :
    convertHandler [("doc.docx", [9])] "libreoffice" defaultOpts (.resp 503 [])
      = (.serverError (.badStatus 503), ⟨1, 0⟩)
  ∧ ∀ (files : List (String × Bytes)) (ctForm : String) (o : ConversionOptions)
      (remote : RemoteResult),
      (convertHandler files ctForm o remote).2.localAttempts = 0
    ∧ (convertHandler files ctForm o remote).2.remoteAttempts ≤ 1 := by
  refine ⟨by decide, ?_⟩
  intro files ctForm o remote
  unfold convertHandler proxyToGotenbergDirect
  by_cases hf : files.isEmpty
  · simp [hf]
  · cases h : selectEndpoint (resolveConversionType ctForm) o.merge with
    | error e => simp [hf, h]
    | ok ep =>
      cases remote with
      | netErr m => simp [hf, h]
      | resp st body => by_cases hs : st = 200 <;> simp [hf, h, hs]

/-- C2 counterexample: uploading `[x.docx, y.pdf]` and then processing with
the declared order `[y.pdf, x.docx]` does not yield a reordered deliverable;
the call fails, because the stored names embed the upload position
(`0_x.docx`, `1_y.pdf`) while processing re-derives `0_y.pdf` and
`1_x.docx`, which do not exist. -/
theorem C2_counterexample :
    (processHandler id (some (uploadSession [("x.docx", [1]), ("y.pdf", [2])]))
      ["y.pdf", "x.docx"]).result = .error (.docxConvertFailed "1_x.docx") := by decide

/-- C2 amended: the deliverable's document order equals the declared order
only when the declared order coincides with the upload order: processing
`[x.docx, y.pdf]` in upload order yields the converted `x` content followed
by `y`'s content. -/
theorem C2_upload_order_roundtrip (conv : Bytes → Bytes) (xb yb : Bytes) :
    (processHandler conv (some (uploadSession [("x.docx", xb), ("y.pdf", yb)]))
      ["x.docx", "y.pdf"]).result = .ok (conv xb ++ yb) := by
  have hu : uploadSession [("x.docx", xb), ("y.pdf", yb)]
      = [(storedName 0 "x.docx", xb), (storedName 1 "y.pdf", yb)] := rfl
  have e0 : storedName 0 "x.docx" = "0_x.docx" := by decide
  have e1 : storedName 1 "y.pdf" = "1_y.pdf" := by decide
  have a0 : "0_x.docx" ++ ".pdf" = "0_x.docx.pdf" := by decide
  have x0 : strToLower (filepathExt "0_x.docx") = ".docx" := by decide
  have x1 : strToLower (filepathExt "1_y.pdf") = ".pdf" := by decide
  have hn : List.enum ["x.docx", "y.pdf"] = [(0, "x.docx"), (1, "y.pdf")] := rfl
  simp [processHandler, hu, hn, processLoop, e0, e1, a0, x0, x1, List.lookup,
    readAll, mergePdfs]

/-- C3 counterexample: a declared order that omits a registered name
(`y.pdf`) is not rejected — the call succeeds and serves the remaining
item's conversion. -/
theorem C3_counterexample :
    (processHandler id (some (uploadSession [("x.docx", [1]), ("y.pdf", [2])]))
      ["x.docx"]).result = .ok [1] := by decide

/-- C3 amended: the handler performs no permutation validation.  An order
omitting a registered name succeeds over just the declared items; an order
duplicating a name fails only because the re-derived indexed name of the
second occurrence does not exist, surfacing as a generic conversion failure,
never as a dedicated invalid-order failure. -/
theorem C3_no_order_validation (conv : Bytes → Bytes) (xb yb : Bytes) :
    (processHandler conv (some (uploadSession [("x.docx", xb), ("y.pdf", yb)]))
        ["x.docx"]).result = .ok (conv xb)
  ∧ (processHandler conv (some (uploadSession [("x.docx", xb), ("y.pdf", yb)]))
        ["x.docx", "x.docx"]).result = .error (.docxConvertFailed "1_x.docx") := by
  have hu : uploadSession [("x.docx", xb), ("y.pdf", yb)]
      = [(storedName 0 "x.docx", xb), (storedName 1 "y.pdf", yb)] := rfl
  have e0 : storedName 0 "x.docx" = "0_x.docx" := by decide
  have e1 : storedName 1 "y.pdf" = "1_y.pdf" := by decide
  have e2 : storedName 1 "x.docx" = "1_x.docx" := by decide
  have a0 : "0_x.docx" ++ ".pdf" = "0_x.docx.pdf" := by decide
  have x0 : strToLower (filepathExt "0_x.docx") = ".docx" := by decide
  have x2 : strToLower (filepathExt "1_x.docx") = ".docx" := by decide
  have hn1 : List.enum ["x.docx"] = [(0, "x.docx")] := rfl
  have hn2 : List.enum ["x.docx", "x.docx"] = [(0, "x.docx"), (1, "x.docx")] := rfl
  constructor
  · simp [processHandler, hu, hn1, processLoop, e0, a0, x0, List.lookup]
  · simp [processHandler, hu, hn2, processLoop, e0, e1, e2, a0, x0, x2, List.lookup]

/-- C9: destroying a session's storage scope is idempotent, leaves no
residual storage under that id, and is a no-op (not an error) when the scope
is already absent. -/
theorem C9_destroy_idempotent (root : UploadsRoot) (sid : String) :
    destroySession (destroySession root sid) sid = destroySession root sid
  ∧ List.lookup sid (destroySession root sid) = none
  ∧ (List.lookup sid root = none → destroySession root sid = root) :=
  ⟨destroy_idem root sid, destroy_lookup_none root sid, destroy_absent root sid⟩

/-- C9 witness: destroying an absent session id on a concrete root is a
no-op. -/
theorem C9_destroy_idempotent_witness :
    destroySession [("a", [("f", [1])])] "b" = [("a", [("f", [1])])] :=
  (C9_destroy_idempotent [("a", [("f", [1])])] "b").2.2 (by decide)

/-- C10: an empty (or absent) `conversionType` form value is not rejected:
it resolves to `"libreoffice"`, routes to that engine's endpoint, and the
request proceeds normally. -/
theorem C10_default_libreoffice (o : ConversionOptions) (f : String × Bytes)
    (body : Bytes) :
    resolveConversionType "" = "libreoffice"
  ∧ selectEndpoint (resolveConversionType "") o.merge
      = .ok (if o.merge then "/forms/libreoffice/merge" else "/forms/libreoffice/convert")
  ∧ (convertHandler [f] "" o (.resp 200 body)).1 = .pdf body :=
  ⟨rfl, rfl, rfl⟩

/-- C4 counterexample: processing `[a.docx, b.txt]` does reject the request
with the unsupported-format error, but only after a local conversion has
already been performed on `a.docx` — one conversion call is wasted, so the
rejection is not made before any conversion attempt on the request. -/
theorem C4_counterexample :
    (processHandler id (some (uploadSession [("a.docx", [1]), ("b.txt", [2])]))
      ["a.docx", "b.txt"]).convCalls = 1
  ∧ (processHandler id (some (uploadSession [("a.docx", [1]), ("b.txt", [2])]))
      ["a.docx", "b.txt"]).result = .error (.unsupportedFormat ".txt") := by decide

/-- C4 amended: the unsupported-format rejection fires when the offending
item is reached in declared order; when the offending item is first, the
call is rejected before any conversion attempt (zero conversion calls),
while items earlier in the order have already been converted by then. -/
theorem C4_unsupported_rejection (conv : Bytes → Bytes) (dir : Dir) (name : String)
    (rest : List String)
    (h1 : strToLower (filepathExt (storedName 0 name)) ≠ ".docx")
    (h2 : strToLower (filepathExt (storedName 0 name)) ≠ ".pdf") :
    processHandler conv (some dir) (name :: rest)
      = ⟨.error (.unsupportedFormat (strToLower (filepathExt (storedName 0 name)))),
          0, none⟩ := by
  have hn : List.enum (name :: rest) = (0, name) :: List.enumFrom 1 rest := rfl
  simp only [processHandler, hn, processLoop]
  rw [if_neg h1, if_neg h2]

/-- C4 witness: a concrete call whose first item has an unconvertible
extension is rejected with zero conversion calls. -/
theorem C4_unsupported_rejection_witness :
    processHandler id (some (uploadSession [("a.docx", [1])])) ["b.txt"]
      = ⟨.error (.unsupportedFormat ".txt"), 0, none⟩ := by
  have h := C4_unsupported_rejection id (uploadSession [("a.docx", [1])]) "b.txt" []
    (by decide) (by decide)
  simpa [show strToLower (filepathExt (storedName 0 "b.txt")) = ".txt" from by decide]
    using h

/-- C5: passthrough identity.  A valid single-item direct request delivers
the remote backend's body byte-for-byte; a staged call over exactly one
registered PDF item delivers that item's stored bytes byte-for-byte. -/
theorem C5_passthrough (f : String × Bytes) (ctForm : String)
    (o : ConversionOptions) (body : Bytes) (conv : Bytes → Bytes) (name : String)
    (yb : Bytes)
    (hep : endpointOk (selectEndpoint (resolveConversionType ctForm) o.merge) = true)
    (hext : strToLower (filepathExt (storedName 0 name)) = ".pdf") :
    (convertHandler [f] ctForm o (.resp 200 body)).1 = .pdf body
  ∧ (processHandler conv (some (uploadSession [(name, yb)])) [name]).result
      = .ok yb := by
  constructor
  · cases h : selectEndpoint (resolveConversionType ctForm) o.merge with
    | error e => rw [h] at hep; exact absurd hep (by simp [endpointOk])
    | ok ep => simp [convertHandler, proxyToGotenbergDirect, h]
  · have hu : uploadSession [(name, yb)] = [(storedName 0 name, yb)] := rfl
    have hn : List.enum [name] = [(0, name)] := rfl
    have h1 : strToLower (filepathExt (storedName 0 name)) ≠ ".docx" := by
      rw [hext]; decide
    simp only [processHandler, hu, hn, processLoop]
    rw [if_neg h1, if_pos hext]
    simp [List.lookup]

/-- C5 witness: passthrough on concrete inputs — a direct chromium-html
request returning body `[1, 2]`, and a staged session holding one PDF with
content `[5]`. -/
theorem C5_passthrough_witness :
    (convertHandler [("a.html", [7])] "chromium-html" defaultOpts
        (.resp 200 [1, 2])).1 = .pdf [1, 2]
  ∧ (processHandler id (some (uploadSession [("y.pdf", [5])])) ["y.pdf"]).result
      = .ok [5] :=
  C5_passthrough ("a.html", [7]) "chromium-html" defaultOpts [1, 2] id "y.pdf" [5]
    (by decide) (by decide)

/-- C6 counterexample: a `flatten=true` option on a url conversion is not
dropped — the mapper emits the `flatten` field for `"chromium-url"`, and the
form `proxyURLToGotenberg` sends carries it. -/
theorem C6_counterexample :
    ("flatten", "true") ∈ addGotenbergOptions "chromium-url" optsFlatten
  ∧ ("flatten", "true") ∈ proxyURLForm "https://example.com" optsFlatten := by decide

/-- C6 amended: for every options record with `flatten` set, the url-engine
form contains the `flatten` field — it is written in the common block for
every conversion type, not dropped. -/
theorem C6_flatten_forwarded (o : ConversionOptions) (h : o.flatten = true) :
    ("flatten", "true") ∈ addGotenbergOptions "chromium-url" o := by
  simp [addGotenbergOptions, boolField, h]

/-- C6 witness: the amended statement at the concrete flatten-only record. -/
theorem C6_flatten_forwarded_witness :
    ("flatten", "true") ∈ addGotenbergOptions "chromium-url" optsFlatten :=
  C6_flatten_forwarded optsFlatten (by decide)

/-- C7: for every chromium conversion type and every options record, each
numeric option is forwarded exactly when its value is strictly positive, and
the forwarded string is the two-decimal rendering of the value; a value of 0
or below produces no field. -/
theorem C7_numeric_gating (ct : String) (o : ConversionOptions) (s : String)
    (hct : isChromium ct = true) :
    (("paperWidth", s) ∈ addGotenbergOptions ct o
        ↔ 0 < o.paperWidth ∧ s = fmt2 o.paperWidth)
  ∧ (("paperHeight", s) ∈ addGotenbergOptions ct o
        ↔ 0 < o.paperHeight ∧ s = fmt2 o.paperHeight)
  ∧ (("marginTop", s) ∈ addGotenbergOptions ct o
        ↔ 0 < o.marginTop ∧ s = fmt2 o.marginTop)
  ∧ (("marginBottom", s) ∈ addGotenbergOptions ct o
        ↔ 0 < o.marginBottom ∧ s = fmt2 o.marginBottom)
  ∧ (("marginLeft", s) ∈ addGotenbergOptions ct o
        ↔ 0 < o.marginLeft ∧ s = fmt2 o.marginLeft)
  ∧ (("marginRight", s) ∈ addGotenbergOptions ct o
        ↔ 0 < o.marginRight ∧ s = fmt2 o.marginRight)
  ∧ (("scale", s) ∈ addGotenbergOptions ct o
        ↔ 0 < o.scale ∧ s = fmt2 o.scale) := by
  have hlib : ¬ ct = "libreoffice" := by
    intro h
    rw [h] at hct
    exact absurd hct (by decide)
  refine ⟨?_, ?_, ?_, ?_, ?_, ?_, ?_⟩ <;>
    simp [addGotenbergOptions, hct, hlib, mem_boolField, mem_numField, and_comm]

/-- C7 witness: with `paperWidth = 2` on a chromium-html request, the
`paperWidth` field is forwarded as `"2.00"`. -/
theorem C7_numeric_gating_witness :
    ("paperWidth", "2.00") ∈ addGotenbergOptions "chromium-html" optsPaper2 :=
  (C7_numeric_gating "chromium-html" optsPaper2 "2.00" (by decide)).1.mpr
    ⟨by decide, by decide⟩

/-- C8 counterexample: a processing call on an existing session that fails
(unsupported extension) schedules no destruction of the session's storage
scope, contradicting "regardless of whether the call succeeds or fails". -/
theorem C8_counterexample :
    (processHandler id (some (uploadSession [("b.txt", [1])])) ["b.txt"]).cleanupDelay
      = none
  ∧ (processHandler id (some (uploadSession [("b.txt", [1])])) ["b.txt"]).result
      = .error (.unsupportedFormat ".txt") := by decide

/-- C8 amended: destruction of the session's storage scope is scheduled —
always with the fixed one-hour grace delay — exactly when the processing
call succeeds in serving a deliverable; every failing path returns without
scheduling cleanup. -/
theorem C8_cleanup_on_success_only (conv : Bytes → Bytes) (sess : Option Dir)
    (order : List String) :
    (processHandler conv sess order).cleanupDelay
      = if isServed (processHandler conv sess order).result
          then some graceDelay else none := by
  cases sess with
  | none => rfl
  | some dir =>
    rcases hp : processLoop conv dir (List.enum order) with ⟨e | ⟨dir', paths⟩, n⟩
    · simp [processHandler, hp, isServed]
    · rcases paths with _ | ⟨p, _ | ⟨q, ps⟩⟩
      · simp [processHandler, hp, isServed]
      · cases hl : List.lookup p dir' with
        | none => simp [processHandler, hp, hl, isServed]
        | some b => simp [processHandler, hp, hl, isServed]
      · cases hr : readAll dir' (p :: q :: ps) with
        | none => simp [processHandler, hp, hr, isServed]
        | some docs => simp [processHandler, hp, hr, isServed]
